import Mathlib

/-!
Verification development for the moveit_grasps grasp generator
(src/src/grasp_generator.cpp, src/include/moveit_grasps/grasp_data.h).

The C++ code is shallowly embedded: `double` arithmetic is modelled by exact
rational arithmetic (`ℚ`), `Eigen::Isometry3d` by a rotation matrix plus a
translation vector over `ℚ`, and `std::vector` push sequences by Lean lists.
External collaborators (the GraspScorer sub-score producers and the
GraspData::setGraspWidth posture controller, whose implementations are not
part of the two embedded source files) enter as function parameters.
-/

namespace MoveitGrasps

/-- A 3-vector over the rationals, modelling Eigen::Vector3d. -/
structure Vec3 where
  x : ℚ
  y : ℚ
  z : ℚ
deriving DecidableEq, Repr

instance : Add Vec3 := ⟨fun u v => ⟨u.x + v.x, u.y + v.y, u.z + v.z⟩⟩

instance : Neg Vec3 := ⟨fun v => ⟨-v.x, -v.y, -v.z⟩⟩

instance : Sub Vec3 := ⟨fun u v => ⟨u.x - v.x, u.y - v.y, u.z - v.z⟩⟩

/-- Scalar multiple of a vector. -/
def Vec3.smul (c : ℚ) (v : Vec3) : Vec3 := ⟨c * v.x, c * v.y, c * v.z⟩

/-- Dot product of two 3-vectors. -/
def Vec3.dot (u v : Vec3) : ℚ := u.x * v.x + u.y * v.y + u.z * v.z

/-- Squared Euclidean norm of a 3-vector. -/
def Vec3.normSq (v : Vec3) : ℚ := v.x * v.x + v.y * v.y + v.z * v.z

/-- A 3x3 matrix over the rationals, stored by rows, modelling a rotation
matrix of an Eigen::Isometry3d. -/
structure Mat3 where
  r0 : Vec3
  r1 : Vec3
  r2 : Vec3
deriving DecidableEq, Repr

/-- Matrix-vector product. -/
def Mat3.mulVec (m : Mat3) (v : Vec3) : Vec3 :=
  ⟨m.r0.dot v, m.r1.dot v, m.r2.dot v⟩

/-- Matrix transpose. -/
def Mat3.transpose (m : Mat3) : Mat3 :=
  ⟨⟨m.r0.x, m.r1.x, m.r2.x⟩, ⟨m.r0.y, m.r1.y, m.r2.y⟩, ⟨m.r0.z, m.r1.z, m.r2.z⟩⟩

/-- Matrix product. -/
def Mat3.mulMat (m n : Mat3) : Mat3 :=
  let nt := n.transpose
  ⟨⟨m.r0.dot nt.r0, m.r0.dot nt.r1, m.r0.dot nt.r2⟩,
   ⟨m.r1.dot nt.r0, m.r1.dot nt.r1, m.r1.dot nt.r2⟩,
   ⟨m.r2.dot nt.r0, m.r2.dot nt.r1, m.r2.dot nt.r2⟩⟩

/-- The identity matrix. -/
def Mat3.id : Mat3 := ⟨⟨1, 0, 0⟩, ⟨0, 1, 0⟩, ⟨0, 0, 1⟩⟩

/-- A rigid transform (rotation and translation), modelling
Eigen::Isometry3d.  Applying it maps `v` to `rot * v + tr`. -/
structure Iso where
  rot : Mat3
  tr : Vec3
deriving DecidableEq, Repr

/-- Apply an isometry to a point. -/
def Iso.apply (p : Iso) (v : Vec3) : Vec3 := p.rot.mulVec v + p.tr

/-- Composition of isometries, modelling Eigen `A * B`:
`(A.comp B).apply v = A.apply (B.apply v)`. -/
def Iso.comp (p q : Iso) : Iso := ⟨p.rot.mulMat q.rot, p.rot.mulVec q.tr + p.tr⟩

/-- Inverse of an isometry whose rotation part is orthogonal, the shortcut
Eigen::Isometry3d::inverse() uses: transpose the rotation. -/
def Iso.inv (p : Iso) : Iso :=
  ⟨p.rot.transpose, -(p.rot.transpose.mulVec p.tr)⟩

/-- Right-multiplication of an isometry by a pure rotation, modelling
`pose * Eigen::AngleAxisd(..)`: the translation is unchanged. -/
def Iso.rotR (p : Iso) (r : Mat3) : Iso := ⟨p.rot.mulMat r, p.tr⟩

/-- The identity isometry. -/
def Iso.id : Iso := ⟨Mat3.id, ⟨0, 0, 0⟩⟩

/-- Rotation by 90 degrees about the Y axis (an exactly rational rotation
matrix, used for sweeps with angle_resolution = 90 degrees). -/
def rotY90 : Mat3 := ⟨⟨0, 0, 1⟩, ⟨0, 1, 0⟩, ⟨-1, 0, 0⟩⟩

/-- Rotation by pi about the X axis, modelling
`Eigen::AngleAxisd(M_PI, Eigen::Vector3d::UnitX())`. -/
def rotXpi : Mat3 := ⟨⟨1, 0, 0⟩, ⟨0, -1, 0⟩, ⟨0, 0, -1⟩⟩

/-- Rotation by pi about the Z axis, modelling
`Eigen::AngleAxisd(M_PI, Eigen::Vector3d::UnitZ())`. -/
def rotZpi : Mat3 := ⟨⟨-1, 0, 0⟩, ⟨0, -1, 0⟩, ⟨0, 0, 1⟩⟩

/-- The unit X vector. -/
def unitX : Vec3 := ⟨1, 0, 0⟩

/-- The unit Z vector. -/
def unitZ : Vec3 := ⟨0, 0, 1⟩

/-- GraspGenerator::intersectionHelper (grasp_generator.cpp:653-667).
`some (u, v)` models `return true` with output parameters `u`, `v`;
`none` models `return false`. -/
def intersectionHelper (t u1 v1 u2 v2 a b : ℚ) : Option (ℚ × ℚ) :=
  if 0 ≤ t ∧ t ≤ 1 then
    let u := u1 + t * (u2 - u1)
    let v := v1 + t * (v2 - v1)
    if -a / 2 ≤ u ∧ u ≤ a / 2 ∧ -b / 2 ≤ v ∧ v ≤ b / 2 then some (u, v)
    else none
  else none

/-- GraspGenerator::graspIntersectionHelper (grasp_generator.cpp:543-651):
true iff the straight segment from the grasp point to the maximum-depth
fingertip, carried into the cuboid frame, crosses one of the cuboid's six
faces.  Caveat: in `ℚ` a division by zero yields 0 while the C++ doubles
yield an infinity whose interval test fails; every concrete input used in a
theorem below has all six face-plane denominators nonzero. -/
def graspIntersectionHelper (cuboid_pose : Iso) (depth width height : ℚ)
    (grasp_pose : Iso) (grasp_max_depth : ℚ) : Bool :=
  let pa := grasp_pose.tr
  let pb := pa + Vec3.smul grasp_max_depth (grasp_pose.rot.mulVec unitZ)
  let a := cuboid_pose.inv.apply pa
  let b := cuboid_pose.inv.apply pb
  (intersectionHelper ((height / 2 - a.z) / (b.z - a.z)) a.x a.y b.x b.y depth width).isSome ||
  (intersectionHelper ((-height / 2 - a.z) / (b.z - a.z)) a.x a.y b.x b.y depth width).isSome ||
  (intersectionHelper ((width / 2 - a.y) / (b.y - a.y)) a.x a.z b.x b.z depth height).isSome ||
  (intersectionHelper ((-width / 2 - a.y) / (b.y - a.y)) a.x a.z b.x b.z depth height).isSome ||
  (intersectionHelper ((depth / 2 - a.x) / (b.x - a.x)) a.y a.z b.y b.z width height).isSome ||
  (intersectionHelper ((-depth / 2 - a.x) / (b.x - a.x)) a.y a.z b.y b.z width height).isSome

/-- Body of one direction of the variable-angle sweep
(grasp_generator.cpp:287-299): while graspIntersectionHelper holds, push the
current pose and right-multiply it by the rotation step.  The budget models
the iteration counter: the C++ loop breaks once `iterations > max_iterations`,
i.e. after `max_iterations + 1` pushes, so it is run with budget
`max_iterations + 1`. -/
def sweepGo (cuboid_pose : Iso) (depth width height grasp_max_depth : ℚ)
    (step : Mat3) : Iso → ℕ → List Iso
  | _, 0 => []
  | pose, budget + 1 =>
    if graspIntersectionHelper cuboid_pose depth width height pose grasp_max_depth then
      pose :: sweepGo cuboid_pose depth width height grasp_max_depth step (pose.rotR step) budget
    else []

/-- One rotation direction of the variable-angle sweep of
generateCuboidAxisGrasps (grasp_generator.cpp:284-299): the first tested pose
is `base * step` and each iteration advances by `step`. -/
def variableAngleSweepDir (cuboid_pose : Iso) (depth width height grasp_max_depth : ℚ)
    (base : Iso) (step : Mat3) (max_iterations : ℕ) : List Iso :=
  sweepGo cuboid_pose depth width height grasp_max_depth step (base.rotR step)
    (max_iterations + 1)

/-- The iteration cap `std::size_t max_iterations = M_PI / angle_res + 1`
(grasp_generator.cpp:285) with `angle_res = angle_resolution * M_PI / 180`
(line 169).  In exact arithmetic the pi factors cancel, leaving
`⌊180 / deg + 1⌋` for an angular resolution of `deg` degrees. -/
def maxIterations (deg : ℚ) : ℕ := (⌊(180 : ℚ) / deg + 1⌋).toNat

/-- The pose reached from `p` after `k` right-multiplications by `step`;
`iterRotR (base.rotR step) step k` is the k-th pose tested by a sweep
direction started at `base`. -/
def iterRotR (p : Iso) (step : Mat3) : ℕ → Iso
  | 0 => p
  | k + 1 => (iterRotR p step k).rotR step

/-- A concrete rational rotation (orthogonal, determinant 1) whose columns
are (2,1,-2)/3, (-2,2,-1)/3, (1,2,2)/3; used as the base pose orientation of
the concrete sweep runs so that no face-plane denominator vanishes. -/
def cbaseRot : Mat3 :=
  ⟨⟨2/3, -2/3, 1/3⟩, ⟨1/3, 2/3, 2/3⟩, ⟨-2/3, -1/3, 2/3⟩⟩

/-- A concrete base grasp pose at the center of the cuboid with orientation
`cbaseRot`. -/
def cbase : Iso := ⟨cbaseRot, ⟨0, 0, 0⟩⟩

/-- The per-face pose count of generateCuboidAxisGrasps
(grasp_generator.cpp:209-224): `floor((L - gripper_finger_width) /
grasp_resolution) + 1`, replaced by 3 when that value is not positive (the
face is narrower than the finger). -/
def numGraspsAlong (L finger_width res : ℚ) : ℕ :=
  let n : ℤ := ⌊(L - finger_width) / res⌋ + 1
  if n ≤ 0 then 3 else n.toNat

/-- The matching step `delta` (grasp_generator.cpp:226-234): 0 for a single
pose, else `(L - finger_width) / (num - 1)`.  (The fallback assignment on
lines 217/222 is dead: the `num == 1` test below always overwrites it.) -/
def deltaAlong (L finger_width res : ℚ) : ℚ :=
  let n := numGraspsAlong L finger_width res
  if n = 1 then 0 else (L - finger_width) / ((n : ℚ) - 1)

/-- GraspGenerator::addFaceGraspsHelper (grasp_generator.cpp:455-480),
translation part: the pose translation is advanced by `delta` before each
push, so `num_grasps` poses are pushed at `start + delta`, ...,
`start + num_grasps * delta`. -/
def addFaceGraspsHelper (start delta : Vec3) (num_grasps : ℕ) : List Vec3 :=
  (List.range num_grasps).map (fun i : ℕ => start + Vec3.smul ((i : ℚ) + 1) delta)

/-- The four addFaceGraspsHelper calls of the face-grasp stage
(grasp_generator.cpp:243-271), one list per face in source order:
the -a face and +a face are swept along `b_dir` in steps of `delta_b`, the
+b face and -b face along `a_dir` in steps of `delta_a`.  All four calls
pass `num_grasps_along_b` as the pose count. -/
def faceGraspFaces (cuboid_tr a_dir b_dir : Vec3) (la lb finger_width res offset : ℚ) :
    List (List Vec3) :=
  let nb := numGraspsAlong lb finger_width res
  let da := deltaAlong la finger_width res
  let db := deltaAlong lb finger_width res
  let a_translation :=
    -(Vec3.smul (1/2 * (la + offset)) a_dir) - Vec3.smul (1/2 * (lb - finger_width)) b_dir -
      Vec3.smul db b_dir
  let b_translation :=
    -(Vec3.smul (1/2 * (la - finger_width)) a_dir) - Vec3.smul da a_dir -
      Vec3.smul (1/2 * (lb + offset)) b_dir
  [addFaceGraspsHelper (cuboid_tr + a_translation) (Vec3.smul db b_dir) nb,
   addFaceGraspsHelper (cuboid_tr + -b_translation) (Vec3.smul (-da) a_dir) nb,
   addFaceGraspsHelper (cuboid_tr + -a_translation) (Vec3.smul (-db) b_dir) nb,
   addFaceGraspsHelper (cuboid_tr + b_translation) (Vec3.smul da a_dir) nb]

/-- `num_radial_grasps` (grasp_generator.cpp:170,179-180):
`ceil((pi/2) / angle_res)` with `angle_res = deg * pi / 180`; the pi factors
cancel, leaving `ceil(90 / deg)`, clamped to at least 1. -/
def numRadialGrasps (deg : ℚ) : ℕ :=
  let n := (⌈(90 : ℚ) / deg⌉).toNat
  if n = 0 then 1 else n

/-- GraspGenerator::addCornerGraspsHelper (grasp_generator.cpp:512-541) for
corner `c`: the pose is rotated by `delta_angle = (pi/2)/(num_radial_grasps+1)`
and then pushed, `num_radial_grasps` times; the entry `(c, a)` records the
accumulated rotation `a` in units of a quarter turn, so the pushed poses sit
at fractions 1/(n+1), ..., n/(n+1) of the quarter turn and the unrotated
corner-aligned pose (fraction 0) is never pushed. -/
def addCornerGraspsHelper (c : ℕ) (num_radial_grasps : ℕ) : List (ℕ × ℚ) :=
  (List.range num_radial_grasps).map
    (fun i : ℕ => (c, ((i : ℚ) + 1) / ((num_radial_grasps : ℚ) + 1)))

/-- The corner stage of generateCuboidAxisGrasps (grasp_generator.cpp:173-197):
one addCornerGraspsHelper call for each of the 4 corners. -/
def cornerGraspStage (deg : ℚ) : List (ℕ × ℚ) :=
  (List.range 4).flatMap (fun c => addCornerGraspsHelper c (numRadialGrasps deg))

/-- The largest finite IEEE double, std::numeric_limits::max for double, as
an exact rational. -/
def dblMax : ℚ := (2 - (1/2)^52) * 2^1023

/-- The smallest positive normal IEEE double, std::numeric_limits::min for
double: 2^(-1022).  Note: positive, not the most negative double. -/
def dblMin : ℚ := (1/2)^1022

/-- The accumulator of the min/max pass (grasp_generator.cpp:406-412). -/
structure MinMaxState where
  min_grasp_distance : ℚ
  max_grasp_distance : ℚ
  min_translations : Vec3
  max_translations : Vec3
deriving DecidableEq, Repr

/-- Initial accumulator (grasp_generator.cpp:407-412): mins start at
double max, maxes start at double MIN - the smallest positive double. -/
def minMaxInit : MinMaxState :=
  ⟨dblMax, dblMin, ⟨dblMax, dblMax, dblMax⟩, ⟨dblMin, dblMin, dblMin⟩⟩

/-- One iteration of the min/max loop (grasp_generator.cpp:415-433), given a
pose's grasp distance (the Euclidean norm of `translation - cuboid center`,
supplied alongside since square roots leave ℚ) and its translation. -/
def minMaxStep (s : MinMaxState) (dist : ℚ) (tr : Vec3) : MinMaxState :=
  { max_grasp_distance := if s.max_grasp_distance < dist then dist else s.max_grasp_distance
    min_grasp_distance := if dist < s.min_grasp_distance then dist else s.min_grasp_distance
    min_translations :=
      ⟨if tr.x < s.min_translations.x then tr.x else s.min_translations.x,
       if tr.y < s.min_translations.y then tr.y else s.min_translations.y,
       if tr.z < s.min_translations.z then tr.z else s.min_translations.z⟩
    max_translations :=
      ⟨if s.max_translations.x < tr.x then tr.x else s.max_translations.x,
       if s.max_translations.y < tr.y then tr.y else s.max_translations.y,
       if s.max_translations.z < tr.z then tr.z else s.max_translations.z⟩ }

/-- The full min/max pass over the generated poses
(grasp_generator.cpp:404-433), each pose given as (grasp distance,
translation). -/
def computeMinMax (poses : List (ℚ × Vec3)) : MinMaxState :=
  poses.foldl (fun s p => minMaxStep s p.1 p.2) minMaxInit

/-- GraspScoreWeights (the scoring weight fields read in
grasp_generator.cpp:818-823 and 886-893). -/
structure GraspScoreWeights where
  orientation_x_score_weight : ℚ
  orientation_y_score_weight : ℚ
  orientation_z_score_weight : ℚ
  translation_x_score_weight : ℚ
  translation_y_score_weight : ℚ
  translation_z_score_weight : ℚ
  width_score_weight : ℚ
  depth_score_weight : ℚ
  overhang_score_weight : ℚ
deriving DecidableEq, Repr

/-- GraspGenerator::scoreFingerGrasp (grasp_generator.cpp:855-949).  The
sub-scores are produced by the external GraspScorer collaborator and enter
as arguments; the translation scores are inverted (`1 - x`, lines 879-881)
and the total is the weighted sum of the eight scores divided by the sum of
the eight weights (lines 905-912). -/
def scoreFingerGrasp (gsw : GraspScoreWeights) (width_score : ℚ)
    (orientation_scores : Vec3) (distance_score : ℚ) (translation_scores : Vec3) : ℚ :=
  let ts : Vec3 := ⟨1 - translation_scores.x, 1 - translation_scores.y, 1 - translation_scores.z⟩
  let total_score :=
    gsw.width_score_weight * width_score +
    gsw.orientation_x_score_weight * orientation_scores.x +
    gsw.orientation_y_score_weight * orientation_scores.y +
    gsw.orientation_z_score_weight * orientation_scores.z +
    gsw.depth_score_weight * distance_score +
    gsw.translation_x_score_weight * ts.x +
    gsw.translation_y_score_weight * ts.y +
    gsw.translation_z_score_weight * ts.z
  let high_score :=
    gsw.width_score_weight + gsw.orientation_x_score_weight +
    gsw.orientation_y_score_weight + gsw.orientation_z_score_weight +
    gsw.depth_score_weight + gsw.translation_x_score_weight +
    gsw.translation_y_score_weight + gsw.translation_z_score_weight
  total_score / high_score

/-- GraspGenerator::scoreSuctionGrasp (grasp_generator.cpp:786-853): the
weighted sum of the eight sub-scores (orientation x/y/z, translation x/y/z,
overhang x/y, the last two sharing the overhang weight) divided by the sum
of the eight weights (lines 817-836). -/
def scoreSuctionGrasp (gsw : GraspScoreWeights) (orientation_scores translation_scores : Vec3)
    (overhang_score : ℚ × ℚ) : ℚ :=
  let total_score :=
    gsw.orientation_x_score_weight * orientation_scores.x +
    gsw.orientation_y_score_weight * orientation_scores.y +
    gsw.orientation_z_score_weight * orientation_scores.z +
    gsw.translation_x_score_weight * translation_scores.x +
    gsw.translation_y_score_weight * translation_scores.y +
    gsw.translation_z_score_weight * translation_scores.z +
    gsw.overhang_score_weight * overhang_score.1 +
    gsw.overhang_score_weight * overhang_score.2
  let weight_total :=
    gsw.orientation_x_score_weight + gsw.orientation_y_score_weight +
    gsw.orientation_z_score_weight + gsw.translation_x_score_weight +
    gsw.translation_y_score_weight + gsw.translation_z_score_weight +
    gsw.overhang_score_weight + gsw.overhang_score_weight
  total_score / weight_total

/-- A finger grasp candidate as appended by addGrasp: the generic grasp pose,
the requested opening percentage and the quality score. -/
structure FingerCand where
  pose : Iso
  percent_open : ℚ
  quality : ℚ
deriving DecidableEq, Repr

/-- GraspGenerator::addGrasp for a FINGER end effector
(grasp_generator.cpp:730-774).  GraspData::setGraspWidth is an external
collaborator (declared in grasp_data.h:141, implementation not among the
embedded sources); it enters as the success predicate `setWidth` of the
requested opening percentage, and the quality produced by scoreFingerGrasp
for this pose enters as `score`.  Returns the candidates appended for this
pose together with the function's Boolean return value: the widths 1.0, 0.5,
0.0 are tried in order and the first failure returns false at once. -/
def addGraspFinger (setWidth : ℚ → Bool) (score : ℚ → ℚ) (pose : Iso) :
    List FingerCand × Bool :=
  if setWidth 1 = false then ([], false)
  else
    let c1 : FingerCand := ⟨pose, 1, score 1⟩
    if setWidth (1/2) = false then ([c1], false)
    else
      let c2 : FingerCand := ⟨pose, 1/2, score (1/2)⟩
      if setWidth 0 = false then ([c1, c2], false)
      else ([c1, c2, ⟨pose, 0, score 0⟩], true)

/-- The candidate-vector effect of generateCuboidAxisGrasps
(grasp_generator.cpp:98-453): the generated poses (a pure function of the
geometry, abstract here) are each offered to addGrasp in order, regardless
of earlier failures (lines 439-449 only log a failure), and the function
only ever push_backs into the caller's vector. -/
def generateCuboidAxisGrasps (poses : List Iso) (setWidth : ℚ → Bool)
    (score : Iso → ℚ → ℚ) (grasp_candidates : List FingerCand) : List FingerCand :=
  poses.foldl (fun acc p => acc ++ (addGraspFinger setWidth (score p) p).1) grasp_candidates

/-- The candidate-vector effect of generateFingerGrasps
(grasp_generator.cpp:1152-1214): up to three generateCuboidAxisGrasps calls
(X, Y, Z axis; a disabled axis contributes an empty pose list), threading
the caller's vector through without ever clearing it. -/
def generateFingerGrasps (posesX posesY posesZ : List Iso) (setWidth : ℚ → Bool)
    (score : Iso → ℚ → ℚ) (grasp_candidates : List FingerCand) : List FingerCand :=
  generateCuboidAxisGrasps posesZ setWidth score
    (generateCuboidAxisGrasps posesY setWidth score
      (generateCuboidAxisGrasps posesX setWidth score grasp_candidates))

/-- A suction grasp candidate as appended by addGrasp for a SUCTION end
effector (grasp_generator.cpp:776-781): exactly one candidate per pose. -/
structure SuctionCand where
  pose : Iso
  quality : ℚ
deriving DecidableEq, Repr

/-- The top-grasp re-orientation of generateSuctionGrasps
(grasp_generator.cpp:995-1014): flip pi about X when the top pose Z axis
opposes the ideal Z axis, then flip pi about Z when the (possibly flipped)
X axis opposes the ideal X axis. -/
def reorientedTopGrasp (cuboid_top_pose ideal : Iso) : Iso :=
  let c1 :=
    if (cuboid_top_pose.rot.mulVec unitZ).dot (ideal.rot.mulVec unitZ) < 0 then
      cuboid_top_pose.rotR rotXpi
    else cuboid_top_pose
  if (c1.rot.mulVec unitX).dot (ideal.rot.mulVec unitX) < 0 then c1.rotR rotZpi else c1

/-- A pure translation isometry, modelling Eigen::Translation3d. -/
def translate3 (x y z : ℚ) : Iso := ⟨Mat3.id, ⟨x, y, z⟩⟩

/-- The first (guaranteed) suction pose (grasp_generator.cpp:1021-1031): the
re-oriented top-center pose translated by grasp_min_depth along its own Z
(approach) axis. -/
def centerGraspPose (cuboid_top_pose ideal : Iso) (grasp_min_depth : ℚ) : Iso :=
  (reorientedTopGrasp cuboid_top_pose ideal).comp (translate3 0 0 grasp_min_depth)

/-- Number of iterations of `for (v = lo; v < hi; v += step)` over exact
rationals, for positive step. -/
def countLt (lo hi step : ℚ) : ℕ :=
  if 0 < step then (⌈(hi - lo) / step⌉).toNat else 0

/-- Number of iterations of `for (v = lo; v <= hi; v += step)` over exact
rationals, for positive step. -/
def countLe (lo hi step : ℚ) : ℕ :=
  if 0 < step then (⌊(hi - lo) / step⌋ + 1).toNat else 0

/-- Iteration count of the suction yaw loop (grasp_generator.cpp:1058-1060,
1069): `yaw` runs from `yaw_increment = pi * deg / 180` below `2 pi` in
steps of `yaw_increment`; in exact arithmetic the pi factors cancel, giving
the loop on degrees from `deg` below `360`. -/
def yawCount (deg : ℚ) : ℕ := countLt deg 360 deg

/-- Iteration count of the suction depth loop (grasp_generator.cpp:1054-1056,
1080): `z` from `grasp_depth_resolution` up to
`grasp_max_depth - grasp_min_depth` inclusively. -/
def zCount (grasp_depth_resolution grasp_min_depth grasp_max_depth : ℚ) : ℕ :=
  countLe grasp_depth_resolution (grasp_max_depth - grasp_min_depth) grasp_depth_resolution

/-- `xy_max` of generateSuctionGrasps (grasp_generator.cpp:1045-1052). -/
def suctionXYMax (depth width active_suction_range_x active_suction_range_y : ℚ) : ℚ :=
  if depth - active_suction_range_x < width - active_suction_range_y then
    depth / 2 - active_suction_range_x / 2
  else width / 2 - active_suction_range_y / 2

/-- Modelled from the spec: `xy_min` and `xy_increment`, used by the X/Y
translation loops (grasp_generator.cpp:1091,1107) without a visible prior
definition in the embedded sources (they are not declared in
grasp_generator.cpp and the class header is not among the embedded files),
are taken to equal `grasp_resolution`, as spec section 9 instructs.  The
iteration count of one X or Y loop (`v` from `xy_min` to `xy_max`
inclusively). -/
def xyCount (grasp_resolution depth width active_suction_range_x active_suction_range_y : ℚ) : ℕ :=
  countLe grasp_resolution
    (suctionXYMax depth width active_suction_range_x active_suction_range_y) grasp_resolution

/-- One expansion stage of generateSuctionGrasps (grasp_generator.cpp:
1065-1117): iterate over a snapshot of the current pose set and, for each
pose and each offset isometry, push the pose composed with the offset. -/
def expandStage (offsets : List Iso) (poses : List Iso) : List Iso :=
  poses ++ poses.flatMap (fun p => offsets.map (fun o => p.comp o))

/-- The suction pose enumeration (grasp_generator.cpp:1019-1117): the center
pose, then the yaw, depth, Y and X expansion stages in order.  The offset
lists are the per-stage right-multiplied isometries (yaw rotations need
irrational entries, so they stay abstract); their lengths are tied to the
loop iteration counts in the theorems (for Y and X, two pushes per
iteration: +v and -v). -/
def suctionGraspPoses (cuboid_top_pose ideal : Iso) (grasp_min_depth : ℚ)
    (yawOffs zOffs yOffs xOffs : List Iso) : List Iso :=
  expandStage xOffs (expandStage yOffs (expandStage zOffs
    (expandStage yawOffs [centerGraspPose cuboid_top_pose ideal grasp_min_depth])))

/-- The candidate-vector effect of generateSuctionGrasps
(grasp_generator.cpp:966-1150): the caller's vector is cleared on entry
(line 971) and then exactly one scored candidate is appended per enumerated
pose (lines 1119-1128 with the SUCTION branch of addGrasp, lines 776-781).
The quality produced by scoreSuctionGrasp enters as `score`. -/
def generateSuctionGrasps (cuboid_top_pose ideal : Iso) (grasp_min_depth : ℚ)
    (yawOffs zOffs yOffs xOffs : List Iso) (score : Iso → ℚ)
    (grasp_candidates : List SuctionCand) : List SuctionCand :=
  (suctionGraspPoses cuboid_top_pose ideal grasp_min_depth yawOffs zOffs yOffs xOffs).map
    (fun p => ⟨p, score p⟩)

end MoveitGrasps

namespace MoveitGrasps

/-- Components of a sum of vectors. -/
theorem Vec3.add_mk (a b c d e f : ℚ) :
    ((⟨a, b, c⟩ : Vec3) + ⟨d, e, f⟩) = ⟨a + d, b + e, c + f⟩ := rfl

/-- Components of a negated vector. -/
theorem Vec3.neg_mk (a b c : ℚ) : (-(⟨a, b, c⟩ : Vec3)) = ⟨-a, -b, -c⟩ := rfl

/-- Components of a difference of vectors. -/
theorem Vec3.sub_mk (a b c d e f : ℚ) :
    ((⟨a, b, c⟩ : Vec3) - ⟨d, e, f⟩) = ⟨a - d, b - e, c - f⟩ := rfl

/-- C2: intersectionHelper returns true iff `t` lies in `[0,1]` and the
interpolated in-plane point lies within the half-extents `a/2`, `b/2`;
when true, the outputs are exactly the interpolated coordinates. -/
theorem claimC2 (t u1 v1 u2 v2 a b : ℚ) :
    intersectionHelper t u1 v1 u2 v2 a b =
      if (0 ≤ t ∧ t ≤ 1) ∧
          (-(a / 2) ≤ u1 + t * (u2 - u1) ∧ u1 + t * (u2 - u1) ≤ a / 2) ∧
          (-(b / 2) ≤ v1 + t * (v2 - v1) ∧ v1 + t * (v2 - v1) ≤ b / 2) then
        some (u1 + t * (u2 - u1), v1 + t * (v2 - v1))
      else none := by
  unfold intersectionHelper
  have hnm : ∀ q : ℚ, -q / 2 = -(q / 2) := fun q => by ring
  split_ifs with h1 h2 h3 <;> simp_all [hnm]

/-- The sweep loop pushes at most `budget` poses. -/
theorem sweepGo_length_le (c : Iso) (d w h g : ℚ) (s : Mat3) :
    ∀ (b : ℕ) (p : Iso), (sweepGo c d w h g s p b).length ≤ b := by
  intro b
  induction b with
  | zero => intro p; simp [sweepGo]
  | succ n ih =>
    intro p
    by_cases hr : graspIntersectionHelper c d w h p g = true
    · simpa [sweepGo, hr] using ih (p.rotR s)
    · simp [sweepGo, hr]

/-- Shifting the start of an iterated right-rotation by one step. -/
theorem iterRotR_shift (p : Iso) (s : Mat3) :
    ∀ k, iterRotR (p.rotR s) s k = iterRotR p s (k + 1) := by
  intro k
  induction k with
  | zero => rfl
  | succ n ih => simp only [iterRotR, ih]

/-- Characterization of the sweep loop: the pushed poses are the successive
rotations of the start pose, every pushed pose passes
graspIntersectionHelper, and if the loop stopped before exhausting its
budget then the next pose fails graspIntersectionHelper. -/
theorem sweepGo_spec (c : Iso) (d w h g : ℚ) (s : Mat3) :
    ∀ (b : ℕ) (p : Iso),
      (∀ i, i < (sweepGo c d w h g s p b).length →
        (sweepGo c d w h g s p b)[i]? = some (iterRotR p s i) ∧
        graspIntersectionHelper c d w h (iterRotR p s i) g = true) ∧
      ((sweepGo c d w h g s p b).length < b →
        graspIntersectionHelper c d w h
          (iterRotR p s (sweepGo c d w h g s p b).length) g = false) := by
  intro b
  induction b with
  | zero =>
    intro p
    refine ⟨fun i hi => absurd hi (by simp [sweepGo]), fun hlt => absurd hlt (by simp [sweepGo])⟩
  | succ n ih =>
    intro p
    by_cases hr : graspIntersectionHelper c d w h p g = true
    · have hunf : sweepGo c d w h g s p (n + 1) =
          p :: sweepGo c d w h g s (p.rotR s) n := by
        simp [sweepGo, hr]
      obtain ⟨ih1, ih2⟩ := ih (p.rotR s)
      rw [hunf]
      constructor
      · intro i hi
        cases i with
        | zero => exact ⟨by simp [iterRotR], by simpa [iterRotR] using hr⟩
        | succ j =>
          have hj : j < (sweepGo c d w h g s (p.rotR s) n).length := by
            simpa using hi
          have hh := ih1 j hj
          rw [iterRotR_shift] at hh
          simpa using hh
      · intro hlt
        have hlt2 : (sweepGo c d w h g s (p.rotR s) n).length < n := by
          simpa using hlt
        have hh := ih2 hlt2
        rw [iterRotR_shift] at hh
        simpa using hh
    · have hr2 : graspIntersectionHelper c d w h p g = false := by simpa using hr
      have hunf : sweepGo c d w h g s p (n + 1) = [] := by
        simp [sweepGo, hr2]
      rw [hunf]
      exact ⟨fun i hi => absurd hi (by simp), fun _ => by simpa [iterRotR] using hr2⟩

/-- Evaluation of the concrete 90-degree sweep run (cuboid 2x2x2 at the
identity pose, grasp_max_depth 3, base pose `cbase` at the center): all four
tested poses pass graspIntersectionHelper, so the loop exhausts its budget
maxIterations(90) + 1 = 4. -/
theorem sweepRun90_length :
    (variableAngleSweepDir Iso.id 2 2 2 3 cbase rotY90 (maxIterations 90)).length = 4 := by
  norm_num [variableAngleSweepDir, maxIterations, sweepGo, graspIntersectionHelper,
    intersectionHelper, Iso.inv, Iso.apply, Iso.rotR, Iso.id,
    Mat3.mulVec, Mat3.mulMat, Mat3.transpose, Mat3.id, Vec3.dot, Vec3.smul, cbase, cbaseRot,
    rotY90, unitZ, Vec3.add_mk, Vec3.neg_mk]

/-- The first pose pushed by the concrete 90-degree sweep run is the first
rotated pose `cbase * rotY90`. -/
theorem sweepRun90_head :
    (variableAngleSweepDir Iso.id 2 2 2 3 cbase rotY90 (maxIterations 90)).head? =
      some (cbase.rotR rotY90) := by
  norm_num [variableAngleSweepDir, maxIterations, sweepGo, graspIntersectionHelper,
    intersectionHelper, Iso.inv, Iso.apply, Iso.rotR, Iso.id,
    Mat3.mulVec, Mat3.mulMat, Mat3.transpose, Mat3.id, Vec3.dot, Vec3.smul, cbase, cbaseRot,
    rotY90, unitZ, Vec3.add_mk, Vec3.neg_mk]

/-- The segment of the first rotated pose of the concrete run crosses a face
of the cuboid. -/
theorem sweepRun90_reachFirst :
    graspIntersectionHelper Iso.id 2 2 2 (cbase.rotR rotY90) 3 = true := by
  norm_num [graspIntersectionHelper, intersectionHelper, Iso.inv, Iso.apply, Iso.rotR, Iso.id,
    Mat3.mulVec, Mat3.mulMat, Mat3.transpose, Mat3.id, Vec3.dot, Vec3.smul, cbase, cbaseRot,
    rotY90, unitZ, Vec3.add_mk, Vec3.neg_mk]

/-- C3 counterexample: a rotated pose whose fingertip segment exits through a
face of the cuboid is NOT rejected - it is the first pose the sweep adds.
(Concretely: cuboid 2x2x2 at the identity, grasp_max_depth 3, base pose at
the cuboid center with orientation `cbaseRot`, angle resolution 90 degrees.) -/
theorem claimC3_counterexample :
    graspIntersectionHelper Iso.id 2 2 2 (cbase.rotR rotY90) 3 = true ∧
    (variableAngleSweepDir Iso.id 2 2 2 3 cbase rotY90 (maxIterations 90)).head? =
      some (cbase.rotR rotY90) :=
  ⟨sweepRun90_reachFirst, sweepRun90_head⟩

/-- C3 (amended): each direction of the variable-angle sweep ADDS every
successive rotated pose whose grasp-point-to-fingertip segment crosses a
face of the cuboid, and stops at the first angle whose segment crosses NO
face (or when the iteration cap is exhausted). -/
theorem claimC3_amended (cuboid_pose : Iso) (depth width height grasp_max_depth : ℚ)
    (base : Iso) (step : Mat3) (max_iterations : ℕ) :
    (∀ i, i < (variableAngleSweepDir cuboid_pose depth width height grasp_max_depth
        base step max_iterations).length →
      (variableAngleSweepDir cuboid_pose depth width height grasp_max_depth
        base step max_iterations)[i]? = some (iterRotR (base.rotR step) step i) ∧
      graspIntersectionHelper cuboid_pose depth width height
        (iterRotR (base.rotR step) step i) grasp_max_depth = true) ∧
    ((variableAngleSweepDir cuboid_pose depth width height grasp_max_depth
        base step max_iterations).length < max_iterations + 1 →
      graspIntersectionHelper cuboid_pose depth width height
        (iterRotR (base.rotR step) step
          (variableAngleSweepDir cuboid_pose depth width height grasp_max_depth
            base step max_iterations).length) grasp_max_depth = false) := by
  unfold variableAngleSweepDir
  exact sweepGo_spec cuboid_pose depth width height grasp_max_depth step
    (max_iterations + 1) (base.rotR step)

/-- Witness for the amended C3 theorem at the concrete 90-degree run: its
first added pose is the first rotated pose and that pose's segment crosses a
face. -/
theorem claimC3_amended_witness :
    (variableAngleSweepDir Iso.id 2 2 2 3 cbase rotY90 (maxIterations 90))[0]? =
      some (iterRotR (cbase.rotR rotY90) rotY90 0) ∧
    graspIntersectionHelper Iso.id 2 2 2 (iterRotR (cbase.rotR rotY90) rotY90 0) 3 = true :=
  (claimC3_amended Iso.id 2 2 2 3 cbase rotY90 (maxIterations 90)).1 0
    (by rw [sweepRun90_length]; omega)

/-- C4 counterexample: with angle_resolution 90 degrees (so pi/angle_res = 2
is an integer) and a geometry whose intersection test keeps succeeding, a
sweep direction runs 4 iterations and adds 4 poses, exceeding the claimed
bound ceil(pi/angle_res) + 1 = 3. -/
theorem claimC4_counterexample :
    (variableAngleSweepDir Iso.id 2 2 2 3 cbase rotY90 (maxIterations 90)).length = 4 ∧
    ¬((variableAngleSweepDir Iso.id 2 2 2 3 cbase rotY90 (maxIterations 90)).length ≤
        (⌈(180 : ℚ) / 90⌉).toNat + 1) := by
  refine ⟨sweepRun90_length, ?_⟩
  rw [sweepRun90_length]
  have h2 : (⌈(180 : ℚ) / 90⌉ : ℤ) = 2 := by norm_num
  rw [h2]
  omega

/-- C4 (amended): for every positive angle resolution `deg` (in degrees),
each direction of the variable-angle sweep executes, and hence adds, at most
`floor(pi/angle_res) + 2 = floor(180/deg) + 2` poses, regardless of the
outcomes of the box-intersection test; this equals `ceil(pi/angle_res) + 1`
whenever `pi/angle_res = 180/deg` is not an integer. -/
theorem claimC4_amended (cuboid_pose : Iso) (depth width height grasp_max_depth : ℚ)
    (base : Iso) (step : Mat3) (deg : ℚ) (hdeg : 0 < deg) :
    (variableAngleSweepDir cuboid_pose depth width height grasp_max_depth
      base step (maxIterations deg)).length ≤ (⌊(180 : ℚ) / deg⌋).toNat + 2 := by
  have h1 : (variableAngleSweepDir cuboid_pose depth width height grasp_max_depth
      base step (maxIterations deg)).length ≤ maxIterations deg + 1 := by
    unfold variableAngleSweepDir
    exact sweepGo_length_le cuboid_pose depth width height grasp_max_depth step
      (maxIterations deg + 1) (base.rotR step)
  have hnn : 0 ≤ ⌊(180 : ℚ) / deg⌋ := Int.floor_nonneg.mpr (by positivity)
  have h2 : maxIterations deg = (⌊(180 : ℚ) / deg⌋).toNat + 1 := by
    unfold maxIterations
    rw [Int.floor_add_one]
    omega
  omega

/-- Witness for the amended C4 theorem at the concrete 90-degree run. -/
theorem claimC4_amended_witness :
    (0 : ℚ) < 90 ∧
    (variableAngleSweepDir Iso.id 2 2 2 3 cbase rotY90 (maxIterations 90)).length ≤
      (⌊(180 : ℚ) / 90⌋).toNat + 2 :=
  ⟨by norm_num, claimC4_amended Iso.id 2 2 2 3 cbase rotY90 90 (by norm_num)⟩

/-- C1, evaluated at the failing input: X-axis grasps with
length_along_a = 0.05, length_along_b = 0.03, gripper_finger_width = 0.01,
grasp_resolution = 0.02 (cuboid at the origin, a_dir = +Y, b_dir = +Z,
offset = 0.001).  The formula count for a face swept along direction a is
floor((0.05 - 0.01) / 0.02) + 1 = 3, but every one of the four faces -
including the +b and -b faces, whose sweep runs along a - receives
numGraspsAlong(length_along_b) = 2 poses, because all four
addFaceGraspsHelper calls pass num_grasps_along_b. -/
theorem claimC1_code_eval :
    (faceGraspFaces ⟨0, 0, 0⟩ ⟨0, 1, 0⟩ ⟨0, 0, 1⟩ (1/20) (3/100) (1/100) (1/50) (1/1000)).map
        List.length = [2, 2, 2, 2] ∧
    numGraspsAlong (1/20) (1/100) (1/50) = 3 ∧
    numGraspsAlong (3/100) (1/100) (1/50) = 2 := by
  have hb : numGraspsAlong (3/100) (1/100) (1/50) = 2 := by
    norm_num [numGraspsAlong]
    rfl
  refine ⟨?_, ?_, hb⟩
  · simp only [faceGraspFaces, addFaceGraspsHelper, hb]
    decide
  · norm_num [numGraspsAlong]
    rfl

/-- C7, evaluated at the failing input: a single generated pose whose
translation is (-1, -2, -2) with the cuboid centered at the origin (so its
grasp distance is 3, as the first conjunct verifies).  The loop leaves every
component of max_translations_ at its initial value
std::numeric_limits double min = 2^(-1022), a small POSITIVE number, instead
of the true maximum translation, because the all-negative coordinates never
exceed it. -/
theorem claimC7_code_eval :
    (3 : ℚ) * 3 = Vec3.normSq ((⟨-1, -2, -2⟩ : Vec3) - ⟨0, 0, 0⟩) ∧
    (computeMinMax [((3 : ℚ), ⟨-1, -2, -2⟩)]).max_translations = ⟨dblMin, dblMin, dblMin⟩ ∧
    (0 : ℚ) < dblMin ∧ dblMin ≠ (-1 : ℚ) := by
  have hpos : (0 : ℚ) < dblMin := by
    rw [dblMin]
    positivity
  refine ⟨by norm_num [Vec3.normSq, Vec3.sub_mk], ?_, hpos, by linarith⟩
  have h1 : ¬(dblMin < (-1 : ℚ)) := by linarith
  have h2 : ¬(dblMin < (-2 : ℚ)) := by linarith
  simp [computeMinMax, minMaxStep, minMaxInit, h1, h2]

/-- C8 counterexample: with angle_resolution = 45 degrees the corner stage
produces 4 * numRadialGrasps = 8 poses, not the claimed
4 * (1 + ceil((pi/2)/angle_res)) = 12: addCornerGraspsHelper rotates before
every push, so no unrotated corner-aligned pose is ever added. -/
theorem claimC8_counterexample :
    numRadialGrasps 45 = 2 ∧
    (cornerGraspStage 45).length = 8 ∧
    ¬((cornerGraspStage 45).length = 4 * (1 + numRadialGrasps 45)) := by
  have hn : numRadialGrasps 45 = 2 := by
    norm_num [numRadialGrasps]
    rfl
  have hl : (cornerGraspStage 45).length = 8 := by
    simp only [cornerGraspStage, addCornerGraspsHelper, hn]
    decide
  exact ⟨hn, hl, by omega⟩

/-- addCornerGraspsHelper pushes exactly its `num_radial_grasps` argument
many poses. -/
theorem addCornerGraspsHelper_length (c n : ℕ) : (addCornerGraspsHelper c n).length = n := by
  rw [addCornerGraspsHelper, List.length_map, List.length_range]

/-- Every pose pushed by addCornerGraspsHelper carries a strictly positive
rotation fraction: the corner-aligned orientation itself is never pushed. -/
theorem addCornerGraspsHelper_snd_pos (c n : ℕ) :
    ∀ pq ∈ addCornerGraspsHelper c n, 0 < pq.2 := by
  intro pq hpq
  rw [addCornerGraspsHelper] at hpq
  obtain ⟨i, -, rfl⟩ := List.mem_map.mp hpq
  have h1 : (0 : ℚ) ≤ (i : ℚ) := Nat.cast_nonneg i
  have h2 : (0 : ℚ) ≤ ((n : ℕ) : ℚ) := Nat.cast_nonneg n
  show (0 : ℚ) < ((i : ℚ) + 1) / (((n : ℕ) : ℚ) + 1)
  exact div_pos (by linarith) (by linarith)

/-- C8 (amended): for every positive angular resolution `deg` (degrees),
the corner stage adds exactly 4 * ceil((pi/2)/angle_res) = 4 * ceil(90/deg)
poses in total, all of them rotated strictly inside the quarter turn (at
fractions k/(n+1), 1 ≤ k ≤ n, of it); no separate unrotated pose at the
corner is added. -/
theorem claimC8_amended (deg : ℚ) (hdeg : 0 < deg) :
    (cornerGraspStage deg).length = 4 * (⌈(90 : ℚ) / deg⌉).toNat ∧
    ∀ pq ∈ cornerGraspStage deg, pq.2 ≠ 0 := by
  have hceil : 0 < ⌈(90 : ℚ) / deg⌉ := Int.ceil_pos.mpr (by positivity)
  have hn : numRadialGrasps deg = (⌈(90 : ℚ) / deg⌉).toNat := by
    unfold numRadialGrasps
    have : (⌈(90 : ℚ) / deg⌉).toNat ≠ 0 := by omega
    simp [this]
  constructor
  · have h4 : List.range 4 = [0, 1, 2, 3] := rfl
    simp only [cornerGraspStage, h4, List.flatMap_cons, List.flatMap_nil, List.append_nil,
      List.length_append, addCornerGraspsHelper_length, hn]
    omega
  · intro pq hpq
    simp only [cornerGraspStage, List.mem_flatMap, List.mem_range] at hpq
    obtain ⟨c, -, hmem⟩ := hpq
    exact (addCornerGraspsHelper_snd_pos c (numRadialGrasps deg) pq hmem).ne'

/-- Witness for the amended C8 theorem at resolution 45 degrees. -/
theorem claimC8_amended_witness :
    (0 : ℚ) < 45 ∧ (cornerGraspStage 45).length = 4 * (⌈(90 : ℚ) / 45⌉).toNat :=
  ⟨by norm_num, (claimC8_amended 45 (by norm_num)).1⟩

/-- Bounds of an eight-term weighted average: when every weight is
nonnegative, every score lies in [0,1] and the weights do not all vanish,
the weighted sum over the weight total lies in [0,1]. -/
theorem wavg8_bounds (w1 w2 w3 w4 w5 w6 w7 w8 s1 s2 s3 s4 s5 s6 s7 s8 : ℚ)
    (hw1 : 0 ≤ w1) (hw2 : 0 ≤ w2) (hw3 : 0 ≤ w3) (hw4 : 0 ≤ w4)
    (hw5 : 0 ≤ w5) (hw6 : 0 ≤ w6) (hw7 : 0 ≤ w7) (hw8 : 0 ≤ w8)
    (hs1 : 0 ≤ s1 ∧ s1 ≤ 1) (hs2 : 0 ≤ s2 ∧ s2 ≤ 1) (hs3 : 0 ≤ s3 ∧ s3 ≤ 1)
    (hs4 : 0 ≤ s4 ∧ s4 ≤ 1) (hs5 : 0 ≤ s5 ∧ s5 ≤ 1) (hs6 : 0 ≤ s6 ∧ s6 ≤ 1)
    (hs7 : 0 ≤ s7 ∧ s7 ≤ 1) (hs8 : 0 ≤ s8 ∧ s8 ≤ 1)
    (hsum : 0 < w1 + w2 + w3 + w4 + w5 + w6 + w7 + w8) :
    0 ≤ (w1 * s1 + w2 * s2 + w3 * s3 + w4 * s4 + w5 * s5 + w6 * s6 + w7 * s7 + w8 * s8) /
        (w1 + w2 + w3 + w4 + w5 + w6 + w7 + w8) ∧
      (w1 * s1 + w2 * s2 + w3 * s3 + w4 * s4 + w5 * s5 + w6 * s6 + w7 * s7 + w8 * s8) /
        (w1 + w2 + w3 + w4 + w5 + w6 + w7 + w8) ≤ 1 := by
  have hnum0 : 0 ≤ w1 * s1 + w2 * s2 + w3 * s3 + w4 * s4 + w5 * s5 + w6 * s6 + w7 * s7 +
      w8 * s8 := by
    have p1 := mul_nonneg hw1 hs1.1
    have p2 := mul_nonneg hw2 hs2.1
    have p3 := mul_nonneg hw3 hs3.1
    have p4 := mul_nonneg hw4 hs4.1
    have p5 := mul_nonneg hw5 hs5.1
    have p6 := mul_nonneg hw6 hs6.1
    have p7 := mul_nonneg hw7 hs7.1
    have p8 := mul_nonneg hw8 hs8.1
    linarith
  have hnumle : w1 * s1 + w2 * s2 + w3 * s3 + w4 * s4 + w5 * s5 + w6 * s6 + w7 * s7 +
      w8 * s8 ≤ w1 + w2 + w3 + w4 + w5 + w6 + w7 + w8 := by
    have q1 := mul_le_of_le_one_right hw1 hs1.2
    have q2 := mul_le_of_le_one_right hw2 hs2.2
    have q3 := mul_le_of_le_one_right hw3 hs3.2
    have q4 := mul_le_of_le_one_right hw4 hs4.2
    have q5 := mul_le_of_le_one_right hw5 hs5.2
    have q6 := mul_le_of_le_one_right hw6 hs6.2
    have q7 := mul_le_of_le_one_right hw7 hs7.2
    have q8 := mul_le_of_le_one_right hw8 hs8.2
    linarith
  exact ⟨div_nonneg hnum0 (le_of_lt hsum), (div_le_one hsum).mpr hnumle⟩

/-- C5: scoreFingerGrasp and scoreSuctionGrasp each return the weighted
average of their eight sub-scores, which lies in [0,1] whenever every
sub-score is in [0,1], every weight is nonnegative and the applicable
weights are not all zero. -/
theorem claimC5 (gsw : GraspScoreWeights) (width_score : ℚ) (o : Vec3)
    (distance_score : ℚ) (t : Vec3) (so st : Vec3) (ov : ℚ × ℚ)
    (hwox : 0 ≤ gsw.orientation_x_score_weight) (hwoy : 0 ≤ gsw.orientation_y_score_weight)
    (hwoz : 0 ≤ gsw.orientation_z_score_weight) (hwtx : 0 ≤ gsw.translation_x_score_weight)
    (hwty : 0 ≤ gsw.translation_y_score_weight) (hwtz : 0 ≤ gsw.translation_z_score_weight)
    (hww : 0 ≤ gsw.width_score_weight) (hwd : 0 ≤ gsw.depth_score_weight)
    (hwov : 0 ≤ gsw.overhang_score_weight)
    (hws : 0 ≤ width_score ∧ width_score ≤ 1)
    (hox : 0 ≤ o.x ∧ o.x ≤ 1) (hoy : 0 ≤ o.y ∧ o.y ≤ 1) (hoz : 0 ≤ o.z ∧ o.z ≤ 1)
    (hds : 0 ≤ distance_score ∧ distance_score ≤ 1)
    (htx : 0 ≤ t.x ∧ t.x ≤ 1) (hty : 0 ≤ t.y ∧ t.y ≤ 1) (htz : 0 ≤ t.z ∧ t.z ≤ 1)
    (hsox : 0 ≤ so.x ∧ so.x ≤ 1) (hsoy : 0 ≤ so.y ∧ so.y ≤ 1) (hsoz : 0 ≤ so.z ∧ so.z ≤ 1)
    (hstx : 0 ≤ st.x ∧ st.x ≤ 1) (hsty : 0 ≤ st.y ∧ st.y ≤ 1) (hstz : 0 ≤ st.z ∧ st.z ≤ 1)
    (hov1 : 0 ≤ ov.1 ∧ ov.1 ≤ 1) (hov2 : 0 ≤ ov.2 ∧ ov.2 ≤ 1)
    (hfsum : 0 < gsw.width_score_weight + gsw.orientation_x_score_weight +
      gsw.orientation_y_score_weight + gsw.orientation_z_score_weight +
      gsw.depth_score_weight + gsw.translation_x_score_weight +
      gsw.translation_y_score_weight + gsw.translation_z_score_weight)
    (hssum : 0 < gsw.orientation_x_score_weight + gsw.orientation_y_score_weight +
      gsw.orientation_z_score_weight + gsw.translation_x_score_weight +
      gsw.translation_y_score_weight + gsw.translation_z_score_weight +
      gsw.overhang_score_weight + gsw.overhang_score_weight) :
    (0 ≤ scoreFingerGrasp gsw width_score o distance_score t ∧
      scoreFingerGrasp gsw width_score o distance_score t ≤ 1) ∧
    (0 ≤ scoreSuctionGrasp gsw so st ov ∧ scoreSuctionGrasp gsw so st ov ≤ 1) := by
  constructor
  · simp only [scoreFingerGrasp]
    exact wavg8_bounds _ _ _ _ _ _ _ _ _ _ _ _ _ _ _ _
      hww hwox hwoy hwoz hwd hwtx hwty hwtz
      hws hox hoy hoz hds
      ⟨by linarith [htx.2], by linarith [htx.1]⟩
      ⟨by linarith [hty.2], by linarith [hty.1]⟩
      ⟨by linarith [htz.2], by linarith [htz.1]⟩ hfsum
  · simp only [scoreSuctionGrasp]
    exact wavg8_bounds _ _ _ _ _ _ _ _ _ _ _ _ _ _ _ _
      hwox hwoy hwoz hwtx hwty hwtz hwov hwov
      hsox hsoy hsoz hstx hsty hstz hov1 hov2 hssum

/-- Witness for C5: all weights 1, all sub-scores 1/2. -/
theorem claimC5_witness :
    (0 ≤ scoreFingerGrasp ⟨1, 1, 1, 1, 1, 1, 1, 1, 1⟩ (1/2) ⟨1/2, 1/2, 1/2⟩ (1/2)
        ⟨1/2, 1/2, 1/2⟩ ∧
      scoreFingerGrasp ⟨1, 1, 1, 1, 1, 1, 1, 1, 1⟩ (1/2) ⟨1/2, 1/2, 1/2⟩ (1/2)
        ⟨1/2, 1/2, 1/2⟩ ≤ 1) ∧
    (0 ≤ scoreSuctionGrasp ⟨1, 1, 1, 1, 1, 1, 1, 1, 1⟩ ⟨1/2, 1/2, 1/2⟩ ⟨1/2, 1/2, 1/2⟩
        (1/2, 1/2) ∧
      scoreSuctionGrasp ⟨1, 1, 1, 1, 1, 1, 1, 1, 1⟩ ⟨1/2, 1/2, 1/2⟩ ⟨1/2, 1/2, 1/2⟩
        (1/2, 1/2) ≤ 1) :=
  claimC5 ⟨1, 1, 1, 1, 1, 1, 1, 1, 1⟩ (1/2) ⟨1/2, 1/2, 1/2⟩ (1/2) ⟨1/2, 1/2, 1/2⟩
    ⟨1/2, 1/2, 1/2⟩ ⟨1/2, 1/2, 1/2⟩ (1/2, 1/2)
    (by norm_num) (by norm_num) (by norm_num) (by norm_num) (by norm_num) (by norm_num)
    (by norm_num) (by norm_num) (by norm_num)
    (by norm_num) (by norm_num) (by norm_num) (by norm_num) (by norm_num)
    (by norm_num) (by norm_num) (by norm_num)
    (by norm_num) (by norm_num) (by norm_num) (by norm_num) (by norm_num) (by norm_num)
    (by norm_num) (by norm_num)
    (by norm_num) (by norm_num)

/-- C6 counterexample: a setGraspWidth outcome that succeeds at percent 1.0
and 0.0 but fails at 0.5 (realizable: the middle target width can exceed
the maximum while percent 1.0 is clamped to it).  addGrasp then appends
exactly ONE candidate for the pose - neither three nor zero - and the
succeeding 0.0 variant is skipped because the 0.5 failure returns false at
once. -/
theorem claimC6_counterexample :
    (fun p : ℚ => decide (p ≠ 1/2)) 0 = true ∧
    (addGraspFinger (fun p : ℚ => decide (p ≠ 1/2)) (fun _ => 0) Iso.id).1 =
      [⟨Iso.id, 1, 0⟩] ∧
    (addGraspFinger (fun p : ℚ => decide (p ≠ 1/2)) (fun _ => 0) Iso.id).2 = false := by
  norm_num [addGraspFinger]

/-- Folding candidate appends over a pose list equals the incoming vector
followed by the per-pose appends, flattened. -/
theorem foldl_append_eq {α β : Type} (f : α → List β) :
    ∀ (l : List α) (acc : List β),
      l.foldl (fun a p => a ++ f p) acc = acc ++ l.flatMap f := by
  intro l
  induction l with
  | nil => intro acc; simp
  | cons p ps ih =>
    intro acc
    simp only [List.foldl_cons, List.flatMap_cons, ih, List.append_assoc]

/-- The candidate-vector effect of one generateCuboidAxisGrasps call:
the incoming candidates survive unchanged in front, and every pose
contributes its own appends regardless of other poses' failures. -/
theorem generateCuboidAxisGrasps_eq (poses : List Iso) (setWidth : ℚ → Bool)
    (score : Iso → ℚ → ℚ) (prior : List FingerCand) :
    generateCuboidAxisGrasps poses setWidth score prior =
      prior ++ poses.flatMap (fun p => (addGraspFinger setWidth (score p) p).1) :=
  foldl_append_eq _ poses prior

/-- C6 (amended): addGrasp tries the widths 1.0, 0.5, 0.0 in order and
returns false at the FIRST failing variant, appending one candidate per
variant that succeeded before it (so 0, 1, 2 or 3 candidates per pose, and
exactly three only when all three succeed); a failure aborts the remaining
variants of that pose but never the overall generation loop, which still
offers every pose to addGrasp and keeps all earlier candidates. -/
theorem claimC6_amended (setWidth : ℚ → Bool) (score : ℚ → ℚ) (pose : Iso)
    (poses : List Iso) (sc : Iso → ℚ → ℚ) (prior : List FingerCand) :
    ((addGraspFinger setWidth score pose).2 = true ↔
      setWidth 1 = true ∧ setWidth (1/2) = true ∧ setWidth 0 = true) ∧
    ((addGraspFinger setWidth score pose).1.map FingerCand.percent_open =
      if setWidth 1 = false then [] else if setWidth (1/2) = false then [1]
      else if setWidth 0 = false then [1, 1/2] else [1, 1/2, 0]) ∧
    (generateCuboidAxisGrasps poses setWidth sc prior =
      prior ++ poses.flatMap (fun p => (addGraspFinger setWidth (sc p) p).1)) := by
  refine ⟨?_, ?_, generateCuboidAxisGrasps_eq poses setWidth sc prior⟩ <;>
    cases h1 : setWidth 1 <;> cases h2 : setWidth (1/2) <;> cases h3 : setWidth 0 <;>
      simp_all [addGraspFinger]

/-- Prepending a stage keeps the head of a nonempty pose list. -/
theorem expandStage_head (offsets poses : List Iso) (c : Iso)
    (h : poses.head? = some c) : (expandStage offsets poses).head? = some c := by
  cases poses with
  | nil => simp at h
  | cons a l => simpa [expandStage] using h

/-- An expansion stage with no offsets leaves the pose set unchanged. -/
theorem expandStage_nil (poses : List Iso) : expandStage [] poses = poses := by
  simp [expandStage]

/-- C9: the re-oriented top-center pose (translated by grasp_min_depth along
its approach axis) is always the first candidate generateSuctionGrasps
emits, and when the yaw, depth, Y and X sweep ranges are all empty the call
yields exactly that one candidate. -/
theorem claimC9 (cuboid_top_pose ideal : Iso) (grasp_min_depth deg gdr gmax res depth width
      asx asy : ℚ) (yawOffs zOffs yOffs xOffs : List Iso) (score : Iso → ℚ)
    (prior : List SuctionCand)
    (hyaw : yawOffs.length = yawCount deg)
    (hz : zOffs.length = zCount gdr grasp_min_depth gmax)
    (hy : yOffs.length = 2 * xyCount res depth width asx asy)
    (hx : xOffs.length = 2 * xyCount res depth width asx asy) :
    (generateSuctionGrasps cuboid_top_pose ideal grasp_min_depth yawOffs zOffs yOffs xOffs
        score prior).head? =
      some ⟨centerGraspPose cuboid_top_pose ideal grasp_min_depth,
        score (centerGraspPose cuboid_top_pose ideal grasp_min_depth)⟩ ∧
    (yawCount deg = 0 → zCount gdr grasp_min_depth gmax = 0 →
      xyCount res depth width asx asy = 0 →
      generateSuctionGrasps cuboid_top_pose ideal grasp_min_depth yawOffs zOffs yOffs xOffs
          score prior =
        [⟨centerGraspPose cuboid_top_pose ideal grasp_min_depth,
          score (centerGraspPose cuboid_top_pose ideal grasp_min_depth)⟩]) := by
  constructor
  · unfold generateSuctionGrasps
    rw [List.head?_map]
    have hh : (suctionGraspPoses cuboid_top_pose ideal grasp_min_depth yawOffs zOffs yOffs
        xOffs).head? = some (centerGraspPose cuboid_top_pose ideal grasp_min_depth) := by
      unfold suctionGraspPoses
      apply expandStage_head
      apply expandStage_head
      apply expandStage_head
      apply expandStage_head
      rfl
    rw [hh]
    rfl
  · intro h1 h2 h3
    have e1 : yawOffs = [] := List.length_eq_zero.mp (by omega)
    have e2 : zOffs = [] := List.length_eq_zero.mp (by omega)
    have e3 : yOffs = [] := List.length_eq_zero.mp (by omega)
    have e4 : xOffs = [] := List.length_eq_zero.mp (by omega)
    subst e1 e2 e3 e4
    unfold generateSuctionGrasps suctionGraspPoses
    rw [expandStage_nil, expandStage_nil, expandStage_nil, expandStage_nil]
    rfl

/-- Witness for C9 at a concrete configuration with all sweep ranges empty:
angle resolution 360 degrees, grasp_min_depth = grasp_max_depth = 0.1,
depth resolution 0.05, grasp resolution 0.1, cuboid 0.5 x 0.5 matching the
active suction range exactly. -/
theorem claimC9_witness :
    yawCount 360 = 0 ∧ zCount (1/20) (1/10) (1/10) = 0 ∧
    xyCount (1/10) (1/2) (1/2) (1/2) (1/2) = 0 ∧
    generateSuctionGrasps Iso.id Iso.id (1/10) [] [] [] [] (fun _ => 0) [] =
      [⟨centerGraspPose Iso.id Iso.id (1/10), 0⟩] := by
  have h1 : yawCount 360 = 0 := by
    norm_num [yawCount, countLt]
  have h2 : zCount (1/20) (1/10) (1/10) = 0 := by
    norm_num [zCount, countLe]
  have h3 : xyCount (1/10) (1/2) (1/2) (1/2) (1/2) = 0 := by
    norm_num [xyCount, countLe, suctionXYMax]
  refine ⟨h1, h2, h3, ?_⟩
  exact (claimC9 Iso.id Iso.id (1/10) 360 (1/20) (1/10) (1/10) (1/2) (1/2) (1/2) (1/2)
    [] [] [] [] (fun _ => 0) []
    (by rw [h1]; rfl) (by rw [h2]; rfl) (by rw [h3]; rfl) (by rw [h3]; rfl)).2 h1 h2 h3

/-- C10: generateSuctionGrasps clears the caller's candidate vector before
generating (its result is independent of the incoming contents), whereas
generateFingerGrasps only appends: the incoming contents survive as a
prefix and the generated block is what a call on an empty vector yields. -/
theorem claimC10 (posesX posesY posesZ : List Iso) (setWidth : ℚ → Bool)
    (score : Iso → ℚ → ℚ) (prior : List FingerCand) (cuboid_top_pose ideal : Iso)
    (grasp_min_depth : ℚ) (yawOffs zOffs yOffs xOffs : List Iso) (sscore : Iso → ℚ)
    (sprior : List SuctionCand) :
    generateFingerGrasps posesX posesY posesZ setWidth score prior =
      prior ++ generateFingerGrasps posesX posesY posesZ setWidth score [] ∧
    generateSuctionGrasps cuboid_top_pose ideal grasp_min_depth yawOffs zOffs yOffs xOffs
        sscore sprior =
      generateSuctionGrasps cuboid_top_pose ideal grasp_min_depth yawOffs zOffs yOffs xOffs
        sscore [] := by
  constructor
  · unfold generateFingerGrasps
    simp [generateCuboidAxisGrasps_eq, List.append_assoc]
  · rfl

end MoveitGrasps
